import Mathlib

/-!
Verification development for the task-intel bot (src/main.py).

The Python source is shallowly embedded: raw remote records are modelled by
the inductive JSON-like type `JVal`; Python dictionary access, truthiness and
the exceptions raised by attribute access on ill-typed values are modelled
explicitly, with fallible code returning `Except String` values; the module's
`try/except` wrappers become total functions into `Option`.  Wall-clock time
(`datetime.now().date()`, `time.time()`) is lifted to explicit parameters:
calendar dates are represented by their proleptic-Gregorian ordinal (the same
day numbering as Python's `date.toordinal`), and context timestamps by a
natural number of seconds.
-/

namespace TaskIntelBot

/-- A JSON-like value, the shape of the raw data the Notion client hands to
`parse_task` (dicts, lists, strings, numbers, null). -/
inductive JVal where
  | null : JVal
  | str : String → JVal
  | num : Int → JVal
  | obj : List (String × JVal) → JVal
  | arr : List JVal → JVal

/-- Python truthiness for the modelled values: `None`, `''`, `0`, `{}` and
`[]` are falsy, everything else truthy. -/
def truthy : JVal → Bool
  | .null => false
  | .str s => s != ""
  | .num n => n != 0
  | .obj fs => !fs.isEmpty
  | .arr xs => !xs.isEmpty

/-- Python `s.lower()` (ASCII case folding), as a structurally computable
map over the character list. -/
def pyLower (s : String) : String := ⟨s.toList.map Char.toLower⟩

/-- Python `s.strip()`: leading and trailing whitespace removed. -/
def pyStrip (s : String) : String :=
  ⟨((s.toList.dropWhile Char.isWhitespace).reverse.dropWhile Char.isWhitespace).reverse⟩

/-- Python `s.split(sep)` for a single-character separator, on char lists
(`"".split(sep)` is `['']`). -/
def splitOnCharList (sep : Char) : List Char → List (List Char)
  | [] => [[]]
  | c :: cs =>
    if c = sep then [] :: splitOnCharList sep cs
    else
      match splitOnCharList sep cs with
      | [] => [[c]]
      | g :: gs => (c :: g) :: gs

/-- Python `s.split(sep)` for a single-character separator. -/
def splitOnChar (sep : Char) (s : String) : List String :=
  (splitOnCharList sep s.toList).map (fun l => ⟨l⟩)

/-- `v.get(key, dflt)` in Python: on a dict, the stored value (which may be
`None`) or the default; on any non-dict value the attribute access raises
(`AttributeError`), modelled as an `Except.error`. -/
def dictGet (v : JVal) (key : String) (dflt : JVal) : Except String JVal :=
  match v with
  | .obj fs => .ok ((fs.lookup key).getD dflt)
  | _ => .error "AttributeError: get"

/-- `get_property(props, field_name, field_type)` from src/main.py:
extracts a Notion property value, with the same defaults and the same
exception behaviour on ill-typed data as the Python code. -/
def get_property (props : JVal) (field_name : String) (field_type : String) :
    Except String JVal :=
  match dictGet props field_name (.obj []) with
  | .error e => .error e
  | .ok field =>
    if field_type = "title" then
      match dictGet field "title" (.arr []) with
      | .error e => .error e
      | .ok titles =>
        match titles with
        | .arr [] => .ok (.str "")
        | .arr (t0 :: _) => dictGet t0 "plain_text" (.str "")
        | .null => .ok (.str "")
        | .str "" => .ok (.str "")
        | .str _ => .error "AttributeError: get"
        | .num 0 => .ok (.str "")
        | .num _ => .error "TypeError: not subscriptable"
        | .obj [] => .ok (.str "")
        | .obj _ => .error "TypeError: not subscriptable"
    else if field_type = "select" then
      match dictGet field "select" (.obj []) with
      | .error e => .error e
      | .ok sel => dictGet sel "name" (.str "Not set")
    else if field_type = "date" then
      match dictGet field "date" (.obj []) with
      | .error e => .error e
      | .ok d => dictGet d "start" (.str "No date")
    else if field_type = "rich_text" then
      match dictGet field "rich_text" (.arr []) with
      | .error e => .error e
      | .ok rt =>
        match rt with
        | .arr [] => .ok (.str "")
        | .arr (r0 :: _) => dictGet r0 "plain_text" (.str "")
        | .null => .ok (.str "")
        | .str "" => .ok (.str "")
        | .str _ => .error "AttributeError: get"
        | .num 0 => .ok (.str "")
        | .num _ => .error "TypeError: not subscriptable"
        | .obj [] => .ok (.str "")
        | .obj _ => .error "TypeError: not subscriptable"
    else .ok (.str "")

/-- The `USER_ID_TO_NAME` manual mapping from src/main.py. -/
def USER_ID_TO_NAME : List (String × String) :=
  [("c0ccc544-c4c3-4a32-9d3b-23a500383b0b", "Brazil"),
   ("080c42c6-fbb2-47d6-9774-1d086c7c3210", "Nishanth"),
   ("ff3909f8-9fa8-4013-9d12-c1e86f8ebffe", "Chethan"),
   ("ec6410cf-b2cb-4ea8-8539-fb973e00a028", "Derrick"),
   ("f9776ebc-9f9c-4bc1-89de-903114a4107a", "Deema"),
   ("24d871d8-8afe-498b-a434-e2609bb1789d", "Omar"),
   ("beadea32-bdbc-4a49-be45-5096886c493a", "Bhavya")]

/-- Python `s[-n:]`: the last `n` characters (the whole string when shorter). -/
def lastN (n : Nat) (s : String) : String :=
  ⟨s.toList.drop (s.toList.length - n)⟩

/-- One iteration of the owner loop in `parse_task`: maps one element of the
`people` list to an optional owner entry, raising exactly where Python would
(`.get` on a non-dict, `in dict` on an unhashable value, slicing a non-str). -/
def owner_of_person (person : JVal) : Except String (Option JVal) :=
  match person with
  | .obj _ =>
    match dictGet person "id" .null with
    | .error e => .error e
    | .ok uid =>
      match (if truthy uid then
               match uid with
               | .arr _ => Except.error "TypeError: unhashable type"
               | .obj _ => Except.error "TypeError: unhashable type"
               | .str s => Except.ok ((USER_ID_TO_NAME.lookup s).isSome)
               | _ => Except.ok false
             else Except.ok false) with
      | .error e => .error e
      | .ok inMap =>
        if inMap then
          match uid with
          | .str s => .ok (some (.str ((USER_ID_TO_NAME.lookup s).getD "")))
          | _ => .ok none
        else
          match dictGet person "name" .null with
          | .error e => .error e
          | .ok pname =>
            if truthy pname then .ok (some pname)
            else if truthy uid then
              match uid with
              | .str s => .ok (some (.str ("user_" ++ lastN 6 s)))
              | _ => .error "TypeError: unsupported subscript"
            else .ok none
  | _ => .error "AttributeError: get"

/-- The owner-extraction block of `parse_task`
(`props.get('Owner', {}).get('people', [])` plus the for-loop).  Iterating a
non-list behaves as in Python: an empty string or empty dict yields no
iterations, any other non-list raises. -/
def parse_owners (props : JVal) : Except String (List JVal) :=
  match dictGet props "Owner" (.obj []) with
  | .error e => .error e
  | .ok ownerField =>
    match dictGet ownerField "people" (.arr []) with
    | .error e => .error e
    | .ok people =>
      match people with
      | .arr ps =>
        ps.foldlM (fun acc p =>
          match owner_of_person p with
          | .error e => Except.error e
          | .ok (some o) => Except.ok (acc ++ [o])
          | .ok none => Except.ok acc) []
      | .str s => if s = "" then .ok [] else .error "AttributeError: get"
      | .obj fs => if fs.isEmpty then .ok [] else .error "AttributeError: get"
      | .null => .error "TypeError: NoneType is not iterable"
      | .num _ => .error "TypeError: int is not iterable"

/-- The due-date extraction of `parse_task`:
`props.get('Due Date', {}).get('date', {}).get('start')` followed by
`due_date_raw.split('T')[0] if due_date_raw else None`. -/
def parse_due (props : JVal) : Except String (Option String) :=
  match dictGet props "Due Date" (.obj []) with
  | .error e => .error e
  | .ok dd1 =>
    match dictGet dd1 "date" (.obj []) with
    | .error e => .error e
    | .ok dd2 =>
      match dictGet dd2 "start" .null with
      | .error e => .error e
      | .ok raw =>
        if truthy raw then
          match raw with
          | .str s => .ok (some ((splitOnChar 'T' s).headD s))
          | _ => .error "AttributeError: split"
        else .ok none

/-- Decimal digit-string parser used by the `%Y-%m-%d` model. -/
def parseDec (s : String) : Option Nat :=
  if s.length ≥ 1 && s.toList.all (·.isDigit) then
    some (s.toList.foldl (fun n c => n * 10 + (c.toNat - 48)) 0)
  else none

/-- Gregorian leap-year test. -/
def isLeap (y : Nat) : Bool := (y % 4 == 0 && y % 100 != 0) || y % 400 == 0

/-- Days in a month of the proleptic Gregorian calendar. -/
def daysInMonth (y m : Nat) : Nat :=
  if m == 2 then (if isLeap y then 29 else 28)
  else if m == 4 || m == 6 || m == 9 || m == 11 then 30
  else 31

/-- `datetime.strptime(s, '%Y-%m-%d')` restricted to the date triple:
three dash-separated decimal components of bounded width, validated as a
real calendar date (Python raises `ValueError` otherwise, modelled `none`). -/
def strptimeYmd (s : String) : Option (Nat × Nat × Nat) :=
  match splitOnChar '-' s with
  | [ys, ms, ds] =>
    match parseDec ys, parseDec ms, parseDec ds with
    | some y, some m, some d =>
      if ys.length ≤ 4 && ms.length ≤ 2 && ds.length ≤ 2 &&
         1 ≤ y && y ≤ 9999 && 1 ≤ m && m ≤ 12 && 1 ≤ d && d ≤ daysInMonth y m
      then some (y, m, d) else none
    | _, _, _ => none
  | _ => none

/-- Days contributed by the complete years before year `y` (year 1 based). -/
def daysBeforeYear (y : Nat) : Nat :=
  let n := y - 1
  365 * n + n / 4 - n / 100 + n / 400

/-- Days contributed by the complete months before month `m` in year `y`. -/
def daysBeforeMonth (y m : Nat) : Nat :=
  ((List.range (m - 1)).map (fun i => daysInMonth y (i + 1))).foldl (· + ·) 0

/-- The proleptic-Gregorian ordinal of a date, as in Python's
`date.toordinal` (day 1 = 0001-01-01). -/
def dateOrd (y m d : Nat) : Nat := daysBeforeYear y + daysBeforeMonth y m + d

/-- Parse a `%Y-%m-%d` string to its day ordinal. -/
def strptimeDays (s : String) : Option Nat :=
  (strptimeYmd s).map (fun t => dateOrd t.1 t.2.1 t.2.2)

/-- Lines 288-299 of src/main.py: the `is_late` / `days_late` computation.
`due` is the already-split due-date string (possibly empty, possibly absent),
`today` the ordinal of `datetime.now().date()`.  An unparseable date falls
into the `except ValueError: pass` branch. -/
def lateInfo (due : Option String) (today : Nat) : Bool × Int :=
  match due with
  | some ds =>
    if ds = "" then (false, 0)
    else
      match strptimeDays ds with
      | some dd => if dd < today then (true, (today : Int) - (dd : Int)) else (false, 0)
      | none => (false, 0)
  | none => (false, 0)

/-- The stored `due_date` field: `due_date if due_date else 'No date'`. -/
def dueStr : Option String → String
  | some s => if s = "" then "No date" else s
  | none => "No date"

/-- `status.lower()`: raises `AttributeError` on a non-string. -/
def pylower : JVal → Except String String
  | .str s => .ok (pyLower s)
  | _ => .error "AttributeError: lower"

/-- Python `v == 'lit'` for a modelled value against a string literal:
true only when `v` is that string (values of other types never equal a
string). -/
def jeqStr (v : JVal) (lit : String) : Bool :=
  match v with
  | .str s => s == lit
  | _ => false

/-- The canonical normalized task dict produced by `parse_task`. -/
structure Task where
  name : JVal
  owners : List JVal
  status : JVal
  due_date : String
  next_step : JVal
  blocker : JVal
  impact : JVal
  priority : JVal
  department : String
  is_late : Bool
  days_late : Int
  is_completed : Bool

/-- Assembles the returned dict of `parse_task` from its components. -/
def buildTask (dept : String) (today : Nat) (name : JVal) (owners : List JVal)
    (due : Option String) (status next_step blocker impact priority : JVal)
    (sl : String) : Task :=
  { name := name, owners := owners, status := status,
    due_date := dueStr due, next_step := next_step, blocker := blocker,
    impact := impact, priority := priority, department := dept,
    is_late := (lateInfo due today).1, days_late := (lateInfo due today).2,
    is_completed := ["done", "completed", "finished"].contains sl }

/-- The body of `parse_task` (lines 263-316) before the catch-all
`except Exception`: every place where the Python body can raise is an
`Except.error`; the explicit `return None` for a missing/placeholder name is
`.ok none`. -/
def parse_task_inner (page : JVal) (dept : String) (today : Nat) :
    Except String (Option Task) :=
  match dictGet page "properties" (.obj []) with
  | .error e => .error e
  | .ok props =>
    match get_property props "Task Name" "title" with
    | .error e => .error e
    | .ok name =>
      if !truthy name || jeqStr name "No name" then .ok none
      else
        match parse_owners props with
        | .error e => .error e
        | .ok owners =>
          match parse_due props with
          | .error e => .error e
          | .ok due =>
            match get_property props "Status" "select" with
            | .error e => .error e
            | .ok status =>
              match get_property props "Next Steps" "rich_text" with
              | .error e => .error e
              | .ok next_step =>
                match get_property props "Blocker" "select" with
                | .error e => .error e
                | .ok blocker =>
                  match get_property props "Impact" "rich_text" with
                  | .error e => .error e
                  | .ok impact =>
                    match get_property props "Priority" "select" with
                    | .error e => .error e
                    | .ok priority =>
                      match pylower status with
                      | .error e => .error e
                      | .ok sl =>
                        .ok (some (buildTask dept today name owners due
                          status next_step blocker impact priority sl))

/-- `parse_task` with its catch-all `try/except`: any internal error is
logged and converted to `None`. -/
def parse_task (page : JVal) (dept : String) (today : Nat) : Option Task :=
  match parse_task_inner page dept today with
  | .ok r => r
  | .error _ => none

/-- The per-page loop of `get_all_tasks` (lines 248-251): parse every record
of one collection's result page list, keeping the non-`None` tasks. -/
def parse_pages (pages : List JVal) (dept : String) (today : Nat) : List Task :=
  pages.filterMap (fun p => parse_task p dept today)

/-! ### Intent classifier and conversation context (lines 40-220) -/

/-- The classifier's intent tags (the `intent` strings of src/main.py). -/
inductive IntentKind where
  | company_update | greeting | thanks | next_steps | this_week | next_week
  | late_tasks | person_weekly | person_update | department_weekly
  | department_update | blockers_update | priorities_update | help
  | person_pipeline | person_impact | person_all_tasks | person_blockers
deriving DecidableEq

/-- The dict returned by `understand_query`: intent tag, optional slots,
tone and confidence (the exact decimal literals of the source, as rationals). -/
structure Intent where
  intent : IntentKind
  person : Option String := none
  department : Option String := none
  tone : String := ""
  confidence : Rat := 0
deriving DecidableEq

/-- The `LAST_QUERY_CONTEXT` global: user id to (person, timestamp). -/
abbrev ContextMap := List (String × String × Nat)

/-- `cleanup_old_contexts` (lines 77-87): drop entries strictly older than
one hour.  `now` is `time.time()` in whole seconds. -/
def cleanup_old_contexts (now : Nat) (m : ContextMap) : ContextMap :=
  m.filter (fun e => now - e.2.2 ≤ 3600)

/-- Python `needle in haystack` for strings: contiguous substring test. -/
def containsList (n : List Char) : List Char → Bool
  | [] => n.isEmpty
  | c :: cs => n.isPrefixOf (c :: cs) || containsList n cs

/-- `needle in haystack` on strings. -/
def containsStr (needle haystack : String) : Bool :=
  containsList needle.toList haystack.toList

/-- `any(word in q for word in words)`. -/
def vocabAny (words : List String) (q : String) : Bool :=
  words.any (fun w => containsStr w q)

/-- The `follow_up_commands` dict, in insertion order. -/
def follow_up_commands : List (String × IntentKind) :=
  [("pipeline", .person_pipeline), ("impact", .person_impact),
   ("all tasks", .person_all_tasks), ("all", .person_all_tasks),
   ("blockers", .person_blockers), ("blocker", .person_blockers),
   ("upcoming", .person_pipeline), ("what\x27s next", .person_pipeline),
   ("next", .person_pipeline), ("tasks", .person_all_tasks),
   ("show tasks", .person_all_tasks), ("list tasks", .person_all_tasks)]

/-- `TEAM_MEMBERS` (key, display name), in insertion order. -/
def TEAM_MEMBERS : List (String × String) :=
  [("omar", "Omar"), ("derrick", "Derrick"), ("bhavya", "Bhavya"),
   ("nishanth", "Nishanth"), ("chethan", "Chethan"), ("deema", "Deema"),
   ("brazil", "Brazil")]

def greeting_words : List String := ["hi", "hello", "hey", "howdy", "hiya", "yo "]

def thanks_words : List String := ["thanks", "thank you", "appreciate", "thx"]

def next_steps_words : List String :=
  ["next steps", "what next", "what should", "recommend", "suggest", "advice"]

def this_week_words : List String :=
  ["due this week", "this week", "weekly tasks", "week plan", "current week",
   "upcoming week"]

def next_week_words : List String :=
  ["due next week", "next week", "following week", "upcoming week"]

def late_words : List String :=
  ["late", "overdue", "past due", "missed deadline", "deadlines passed",
   "behind schedule"]

/-- `dept_patterns`, in insertion order. -/
def dept_patterns : List (String × List String) :=
  [("Tech", ["tech", "engineering", "dev", "developers", "technical"]),
   ("Commercial", ["commercial", "sales", "business", "revenue", "clients"]),
   ("Operations", ["operations", "ops", "operational", "process"]),
   ("Finance", ["finance", "financial", "money", "budget", "revenue"])]

def company_words : List String :=
  ["brief", "overview", "company", "status", "update", "how are we",
   "how we doing"]

def blocker_words : List String :=
  ["block", "stuck", "issue", "problem", "blocker", "impediment", "obstacle"]

def priority_words : List String :=
  ["priority", "important", "critical", "urgent", "high priority", "p0", "p1"]

def help_words : List String :=
  ["help", "what can you do", "how to use", "commands", "options"]

/-- The person week-context word list (line 179). -/
def person_week_words : List String :=
  ["week", "finish", "complete", "due", "deadline"]

/-- The department week-context word list (line 195). -/
def dept_week_words : List String := ["week", "finish", "complete", "due"]

/-- Write/overwrite a user's `LAST_QUERY_CONTEXT` entry (dict assignment). -/
def ctxSet (ctx : ContextMap) (uid person : String) (now : Nat) : ContextMap :=
  if (ctx.lookup uid).isSome then
    ctx.map (fun e => if e.1 == uid then (uid, person, now) else e)
  else ctx ++ [(uid, person, now)]

/-- The rule cascade of `understand_query` after the conversation-context
stage (lines 137-220), in source order, on the lower-cased stripped query. -/
def classify_rules (q : String) (user_id : Option String) (ctx : ContextMap)
    (now : Nat) : Intent × ContextMap :=
  if vocabAny greeting_words q then
    ({intent := .greeting, tone := "warm", confidence := 1}, ctx)
  else if vocabAny thanks_words q then
    ({intent := .thanks, tone := "appreciative", confidence := 1}, ctx)
  else if vocabAny next_steps_words q then
    ({intent := .next_steps, tone := "helpful", confidence := 0.9}, ctx)
  else if vocabAny this_week_words q then
    ({intent := .this_week, tone := "proactive", confidence := 0.9}, ctx)
  else if vocabAny next_week_words q then
    ({intent := .next_week, tone := "forward_looking", confidence := 0.9}, ctx)
  else if vocabAny late_words q then
    ({intent := .late_tasks, tone := "urgent", confidence := 0.9}, ctx)
  else
    match TEAM_MEMBERS.find? (fun m => containsStr m.1 q || containsStr (pyLower m.2) q) with
    | some m =>
      let ctx2 := match user_id with
        | some uid => if uid = "" then ctx else ctxSet ctx uid m.2 now
        | none => ctx
      if vocabAny person_week_words q then
        ({intent := .person_weekly, person := some m.2, tone := "supportive",
          confidence := 0.8}, ctx2)
      else
        ({intent := .person_update, person := some m.2, tone := "supportive",
          confidence := 0.8}, ctx2)
    | none =>
      match dept_patterns.find? (fun dp => vocabAny dp.2 q) with
      | some dp =>
        if vocabAny dept_week_words q then
          ({intent := .department_weekly, department := some dp.1,
            tone := "informative", confidence := 0.8}, ctx)
        else
          ({intent := .department_update, department := some dp.1,
            tone := "informative", confidence := 0.8}, ctx)
      | none =>
        if vocabAny company_words q then
          ({intent := .company_update, tone := "confident", confidence := 0.8}, ctx)
        else if vocabAny blocker_words q then
          ({intent := .blockers_update, tone := "concerned", confidence := 0.8}, ctx)
        else if vocabAny priority_words q then
          ({intent := .priorities_update, tone := "focused", confidence := 0.8}, ctx)
        else if vocabAny help_words q then
          ({intent := .help, tone := "friendly", confidence := 1}, ctx)
        else
          ({intent := .company_update, tone := "friendly", confidence := 0.5}, ctx)

/-- `understand_query(query, user_id)` (lines 89-220), with the global
context map and `time.time()` made explicit.  Returns the produced Intent and
the context map after the call (cleanup plus any write). -/
def understand_query (query : String) (user_id : Option String)
    (ctx : ContextMap) (now : Nat) : Intent × ContextMap :=
  let ctx1 := cleanup_old_contexts now ctx
  if query = "" then
    ({intent := .company_update, tone := "friendly", confidence := 1}, ctx1)
  else
    let q := pyStrip (pyLower query)
    let fromCtx : Option (String × Nat) :=
      match user_id with
      | some uid => if uid = "" then none else ctx1.lookup uid
      | none => none
    match fromCtx with
    | some pc =>
      match follow_up_commands.find? (fun c => c.1 == q) with
      | some c =>
        ({intent := c.2, person := some pc.1, tone := "helpful",
          confidence := 0.95}, ctx1)
      | none =>
        match follow_up_commands.find? (fun c => containsStr c.1 q && decide (q.length < 20)) with
        | some c =>
          ({intent := c.2, person := some pc.1, tone := "helpful",
            confidence := 0.9}, ctx1)
        | none => classify_rules q user_id ctx1 now
    | none => classify_rules q user_id ctx1 now

/-! ### Aggregation cache (`get_all_tasks`, lines 222-261) -/

/-- The outcome of one collection query under `asyncio.wait_for`: a timeout,
any other raised exception, or a result page list (`result['results']`). -/
inductive FetchOutcome where
  | timeout : FetchOutcome
  | fetchError : String → FetchOutcome
  | ok : List JVal → FetchOutcome

/-- Whether the outcome lands in one of the two `except` handlers. -/
def FetchOutcome.isFault : FetchOutcome → Bool
  | .ok _ => false
  | _ => true

/-- Log lines emitted by `get_all_tasks`. -/
inductive LogEntry where
  | timeoutFault : String → LogEntry
  | errorFault : String → String → LogEntry
  | notionNotInitialized : LogEntry
deriving DecidableEq

/-- The logged fault, if any, for one collection's outcome. -/
def faultLog (dept : String) : FetchOutcome → Option LogEntry
  | .timeout => some (.timeoutFault dept)
  | .fetchError m => some (.errorFault dept m)
  | .ok _ => none

/-- The environment of one `get_all_tasks` call: whether the Notion client
initialized, the `DATABASES` config (department label, database id; an empty
id is unconfigured and skipped), the remote behaviour of each configured
collection, and today's date ordinal. -/
structure Env where
  notionReady : Bool
  databases : List (String × String)
  fetch : String → String → FetchOutcome
  today : Nat

/-- The observable result of one `get_all_tasks` call: the returned task
list, the cache content afterwards, the log lines, and how many remote
queries were issued. -/
structure FetchResult where
  tasks : List Task
  cacheAfter : Option (List Task)
  log : List LogEntry
  remoteQueries : Nat

/-- The `for dept, db_id in DATABASES.items()` loop (lines 234-258):
unconfigured ids are skipped; a timeout or error is logged and `continue`d;
a successful result contributes its parsed tasks, in order. -/
def fetchRound (fetch : String → String → FetchOutcome) (today : Nat) :
    List (String × String) → List Task × List LogEntry × Nat
  | [] => ([], [], 0)
  | (dept, db_id) :: rest =>
    if db_id = "" then fetchRound fetch today rest
    else
      match fetch dept db_id with
      | .timeout =>
        let r := fetchRound fetch today rest
        (r.1, LogEntry.timeoutFault dept :: r.2.1, r.2.2 + 1)
      | .fetchError m =>
        let r := fetchRound fetch today rest
        (r.1, LogEntry.errorFault dept m :: r.2.1, r.2.2 + 1)
      | .ok pages =>
        let r := fetchRound fetch today rest
        (parse_pages pages dept today ++ r.1, r.2.1, r.2.2 + 1)

/-- `get_all_tasks` (lines 222-261).  The TTL cache is modelled by its
observable state for the single `"all_tasks"` key: `some snapshot` when a
live entry exists, `none` after expiry or on a cold start.  On a hit the
stored snapshot is returned with no remote call; on a miss the fetch round
runs and its merged result is stored unconditionally (line 260), including
an empty one; if the client never initialized, the empty list is returned
without being cached. -/
def get_all_tasks (env : Env) (cacheBefore : Option (List Task)) : FetchResult :=
  match cacheBefore with
  | some ts => ⟨ts, some ts, [], 0⟩
  | none =>
    if env.notionReady then
      let r := fetchRound env.fetch env.today env.databases
      ⟨r.1, some r.1, r.2.1, r.2.2⟩
    else ⟨[], none, [.notionNotInitialized], 0⟩

/-! ### Command gateway (`slack_command`, lines 952-980) -/

/-- One inbound POST to `/slack/command`.  `signature_valid` and
`timestamp_age_secs` describe the request's Slack signature header pair;
`form_parses` is whether `await request.form()` succeeds. -/
structure SlackRequest where
  text : String
  response_url : Option String
  user_id : Option String
  signature_valid : Bool
  timestamp_age_secs : Nat
  form_parses : Bool
deriving DecidableEq

/-- The immediate JSON acknowledgment. -/
structure AckResponse where
  response_type : String
  text : String
deriving DecidableEq

/-- A background task scheduled via `background_tasks.add_task`. -/
structure ScheduledJob where
  query : String
  response_url : String
  user_id : Option String
deriving DecidableEq

/-- `slack_command` (lines 952-980): parse the form, immediately return the
ephemeral acknowledgment, and schedule `process_query_with_context` whenever
a (truthy) `response_url` is present.  The handler reads only the form
fields `text`, `response_url` and `user_id`. -/
def slack_command (req : SlackRequest) : AckResponse × Option ScheduledJob :=
  if !req.form_parses then
    (⟨"ephemeral", "I\x27m having trouble right now. Try again in 30 seconds."⟩,
     none)
  else
    let query := pyStrip req.text
    let job := match req.response_url with
      | some url => if url = "" then none else some ⟨query, url, req.user_id⟩
      | none => none
    (⟨"ephemeral", "Gathering your task info..."⟩, job)

/-! ### Delayed delivery (`send_slack_response`, lines 1005-1013) -/

/-- The outcome of one HTTP POST to the callback URL: a status code, or a
raised client exception. -/
inductive PostOutcome where
  | status : Nat → PostOutcome
  | netError : String → PostOutcome
deriving DecidableEq

/-- The observable behaviour of one `send_slack_response` call. -/
structure DeliveryResult where
  attempts : Nat
  log : List String
deriving DecidableEq

/-- `send_slack_response` (lines 1005-1013): a single POST; a non-200 status
or a raised exception is logged and the function returns.  `post n` is the
outcome the network would give to the `n`-th attempt, so `attempts` counts
the POSTs actually issued. -/
def send_slack_response (post : Nat → PostOutcome) : DeliveryResult :=
  match post 0 with
  | .status c => if c != 200 then ⟨1, ["Slack response failed"]⟩ else ⟨1, []⟩
  | .netError m => ⟨1, ["Failed to send to Slack: " ++ m]⟩

/-! ### Response formatter (item/trailer structure)

The formatter builds chat strings; the claims under test concern only how
many task blocks a section renders and whether a "... and N more" trailer
line is emitted.  The `...Lines` functions below reproduce the loops,
slicings and trailer conditionals of the corresponding generators verbatim,
emitting one `RLine.item` per rendered task block (the block's text, which
would require every owner to be a string in Python, is abstracted to the
task's name) and one `RLine.more n` per trailer line. -/

/-- One emitted report line: a rendered task block, or a trailer noting `n`
omitted tasks. -/
inductive RLine where
  | item : JVal → RLine
  | more : Nat → RLine

def RLine.isItem : RLine → Bool
  | .item _ => true
  | .more _ => false

def RLine.isMore : RLine → Bool
  | .more _ => true
  | .item _ => false

/-- `t['next_step'] and t['next_step'] not in ['', 'Not specified']`. -/
def hasNextStep (t : Task) : Bool :=
  truthy t.next_step && !(jeqStr t.next_step "" || jeqStr t.next_step "Not specified")

/-- Rendering of the already-filtered `tasks_with_next_steps` list. -/
def nsLines (tasks_with_next_steps : List Task) : List RLine :=
  if tasks_with_next_steps.isEmpty then []
  else (tasks_with_next_steps.take 6).map (fun t => RLine.item t.name)

/-- The `next_steps` branch of `generate_response` (lines 428-444): when any
tasks have next steps, render `tasks_with_next_steps[:6]` and nothing else
(no trailer). -/
def nextStepsLines (tasks : List Task) : List RLine :=
  nsLines (tasks.filter hasNextStep)

/-- Rendering of the already-filtered `late_tasks` list: stable sort
descending by `days_late` (Python `sort(reverse=True)`), first 10 rendered,
and a "... and N more overdue tasks" line exactly when more than 10 exist. -/
def lateLines (late_tasks : List Task) : List RLine :=
  if late_tasks.isEmpty then []
  else
    ((late_tasks.mergeSort (fun a b => decide (b.days_late ≤ a.days_late))).take 10).map
      (fun t => RLine.item t.name) ++
    (if 10 < late_tasks.length then [RLine.more (late_tasks.length - 10)] else [])

/-- `generate_late_tasks` (lines 693-725). -/
def generate_late_tasks_lines (tasks : List Task) : List RLine :=
  lateLines (tasks.filter (fun t => t.is_late && !t.is_completed))

/-- `[t for t in tasks if any(person.lower() in owner.lower() for owner in
t['owners'])]` (for owner lists of strings). -/
def person_tasks_of (tasks : List Task) (person : String) : List Task :=
  tasks.filter (fun t => t.owners.any (fun o =>
    match o with
    | .str s => containsStr (pyLower person) (pyLower s)
    | _ => false))

/-- Rendering of the person's already-filtered task list in
`generate_person_all_tasks`: every in-progress, not-started and completed
task, with no display cap and no trailer. -/
def patLines (person_tasks : List Task) : List RLine :=
  if person_tasks.isEmpty then []
  else
    ((person_tasks.filter (fun t => jeqStr t.status "In progress")).map
      (fun t => RLine.item t.name)) ++
    ((person_tasks.filter (fun t => jeqStr t.status "Not started")).map
      (fun t => RLine.item t.name)) ++
    ((person_tasks.filter (fun t => t.is_completed)).map
      (fun t => RLine.item t.name))

/-- `generate_person_all_tasks` (lines 849-925). -/
def person_all_tasks_lines (tasks : List Task) (person : String) : List RLine :=
  patLines (person_tasks_of tasks person)

/-- Every owner entry of the task is a string (the shape Python's formatter
string-joins without raising). -/
def ownersWF (t : Task) : Bool :=
  t.owners.all (fun o => match o with | .str _ => true | _ => false)

/-! ### Claim C2 -/

/-- A request with an invalid signature and a 100000-second-old timestamp. -/
def c2req : SlackRequest :=
  ⟨"pipeline", some "https://hooks.example/abc", some "U1", false, 100000, true⟩

/-- Claim C2 counterexample: a command whose signature is invalid and whose
timestamp is far older than 5 minutes is nevertheless scheduled for full
processing (classification, cache fetch and delivery), not rejected. -/
theorem C2_counterexample :
    (slack_command c2req).2 = some ⟨"pipeline", "https://hooks.example/abc", some "U1"⟩
    ∧ c2req.signature_valid = false ∧ 300 < c2req.timestamp_age_secs := by
  refine ⟨by decide, rfl, by decide⟩

/-- Claim C2 (amended): the gateway performs no signature or timestamp
verification at all — its behaviour is invariant under the signature header
pair, and every request with a parseable form and a non-empty callback URL
is acknowledged and scheduled for background processing. -/
theorem C2_no_verification :
    (∀ (req : SlackRequest) (v : Bool) (n : Nat),
       slack_command {req with signature_valid := v, timestamp_age_secs := n}
         = slack_command req)
    ∧ (∀ (req : SlackRequest) (url : String), req.form_parses = true →
       req.response_url = some url → url ≠ "" →
       (slack_command req).2 = some ⟨pyStrip req.text, url, req.user_id⟩) := by
  constructor
  · intro req v n; rfl
  · intro req url hf hu hne
    simp [slack_command, hf, hu, hne]

/-- A well-signed request, scheduled like any other. -/
def c2reqOk : SlackRequest :=
  ⟨"status", some "https://hooks.example/xyz", some "U2", true, 10, true⟩

/-- Witness for C2: the amended theorem applied to a concrete request. -/
theorem C2_witness :
    (slack_command c2reqOk).2 = some ⟨"status", "https://hooks.example/xyz", some "U2"⟩ :=
  C2_no_verification.2 c2reqOk "https://hooks.example/xyz" rfl rfl (by decide)

/-! ### Claim C3 -/

/-- One configured collection whose fetch always times out. -/
def c3env : Env := ⟨true, [("Operations", "db-ops")], (fun _ _ => .timeout), 738887⟩

/-- Claim C3 counterexample: a refill in which every configured collection
faults yields zero tasks, yet the empty snapshot IS stored in the cache
(line 260 stores unconditionally), and the next `get_tasks()` call is served
from that pinned empty snapshot with zero remote queries instead of
triggering a fresh fetch round. -/
theorem C3_counterexample :
    (get_all_tasks c3env none).tasks = []
    ∧ (get_all_tasks c3env none).cacheAfter = some []
    ∧ (get_all_tasks c3env (get_all_tasks c3env none).cacheAfter).remoteQueries = 0
    ∧ (get_all_tasks c3env none).log = [.timeoutFault "Operations"] :=
  ⟨rfl, rfl, rfl, rfl⟩

/-- Claim C3 (amended): whenever the Notion client is initialized, a refill
stores its merged result in the cache unconditionally — including a zero-task
all-failure result — and any call finding a live cache entry returns it with
no remote fetch. -/
theorem C3_empty_refill_cached : ∀ env : Env, env.notionReady = true →
    (get_all_tasks env none).cacheAfter = some (get_all_tasks env none).tasks
    ∧ ∀ ts, get_all_tasks env (some ts) = ⟨ts, some ts, [], 0⟩ := by
  intro env hn
  constructor
  · simp [get_all_tasks, hn]
  · intro ts; rfl

/-- Witness for C3: the amended theorem at the all-timeout environment. -/
theorem C3_witness :
    (get_all_tasks c3env none).cacheAfter = some (get_all_tasks c3env none).tasks
    ∧ get_all_tasks c3env (some []) = ⟨[], some [], [], 0⟩ :=
  ⟨(C3_empty_refill_cached c3env rfl).1, (C3_empty_refill_cached c3env rfl).2 []⟩

/-! ### Claim C8 -/

/-- A callback that is unreachable on every attempt. -/
def c8post : Nat → PostOutcome := fun _ => .netError "connection refused"

/-- Claim C8 counterexample: on an unreachable callback the delivery makes
exactly one attempt — it is never retried, contradicting "retried at least
once". -/
theorem C8_counterexample :
    (send_slack_response c8post).attempts = 1
    ∧ ¬ 2 ≤ (send_slack_response c8post).attempts :=
  ⟨rfl, by decide⟩

/-- Claim C8 (amended): `send_slack_response` issues exactly one POST per
call, for every network behaviour; a non-200 response or a raised client
exception is logged and the delivery is abandoned without any retry. -/
theorem C8_single_attempt : ∀ post : Nat → PostOutcome,
    (send_slack_response post).attempts = 1
    ∧ (∀ m, post 0 = .netError m → (send_slack_response post).log ≠ [])
    ∧ (∀ c, post 0 = .status c → c ≠ 200 → (send_slack_response post).log ≠ []) := by
  intro post
  refine ⟨?_, ?_, ?_⟩
  · cases h : post 0 with
    | status c =>
      simp only [send_slack_response, h]
      split <;> rfl
    | netError m => simp [send_slack_response, h]
  · intro m hm
    simp [send_slack_response, hm]
  · intro c hc h200
    simp [send_slack_response, hc, bne_iff_ne, h200]

/-- Witness for C8: the amended theorem at the unreachable callback. -/
theorem C8_witness :
    (send_slack_response c8post).attempts = 1
    ∧ (send_slack_response c8post).log ≠ [] :=
  ⟨(C8_single_attempt c8post).1, (C8_single_attempt c8post).2.1 "connection refused" rfl⟩

/-! ### Structure of parsed tasks -/

/-- Every task `parse_task` produces carries a due-date string, lateness
flag and day count that come from one `lateInfo` computation on the same
extracted due date. -/
lemma parse_task_some_shape (page : JVal) (dept : String) (today : Nat) (t : Task)
    (h : parse_task page dept today = some t) :
    ∃ due, t.due_date = dueStr due ∧ t.is_late = (lateInfo due today).1
      ∧ t.days_late = (lateInfo due today).2 := by
  unfold parse_task at h
  split at h
  · next r heq =>
    subst h
    unfold parse_task_inner at heq
    repeat' split at heq
    all_goals first
      | exact Except.noConfusion heq
      | (simp only [Except.ok.injEq] at heq; exact Option.noConfusion heq)
      | (simp only [Except.ok.injEq, Option.some.injEq] at heq; subst heq
         exact ⟨_, rfl, rfl, rfl⟩)
  · exact Option.noConfusion h

/-- `days_late` is never negative. -/
lemma lateInfo_nonneg (due : Option String) (today : Nat) :
    0 ≤ (lateInfo due today).2 := by
  unfold lateInfo
  cases due with
  | none => simp
  | some ds =>
    by_cases h : ds = ""
    · simp [h]
    · simp only [h, if_false]
      cases hs : strptimeDays ds with
      | none => simp
      | some dd =>
        by_cases hlt : dd < today
        · simp only [hlt, if_true, if_pos hlt]
          omega
        · simp [hlt]

/-- The lateness flag is set exactly when the day count is positive. -/
lemma lateInfo_late_iff (due : Option String) (today : Nat) :
    (lateInfo due today).1 = true ↔ 0 < (lateInfo due today).2 := by
  cases due with
  | none =>
    rw [show lateInfo none today = (false, 0) from rfl]
    simp
  | some ds =>
    by_cases he : ds = ""
    · subst he
      rw [show lateInfo (some "") today = (false, 0) from rfl]
      simp
    · simp only [lateInfo]
      rw [if_neg he]
      split
      · next dd heq =>
          by_cases hlt : dd < today
          · rw [if_pos hlt]
            show true = true ↔ 0 < (today : Int) - (dd : Int)
            constructor
            · intro _; omega
            · intro _; rfl
          · rw [if_neg hlt]
            simp
      · simp

/-- With no parseable due date, or one that is today or later, the day
count is zero. -/
lemma lateInfo_zero (due : Option String) (today : Nat)
    (h : strptimeDays (dueStr due) = none
      ∨ ∃ dd, strptimeDays (dueStr due) = some dd ∧ today ≤ dd) :
    (lateInfo due today).2 = 0 := by
  unfold lateInfo
  cases due with
  | none => simp
  | some ds =>
    by_cases he : ds = ""
    · simp [he]
    · simp only [he, if_false]
      have hds : dueStr (some ds) = ds := by simp [dueStr, he]
      rw [hds] at h
      cases hs : strptimeDays ds with
      | none => simp
      | some dd =>
        rcases h with h | ⟨dd2, hdd2, hle⟩
        · rw [hs] at h; exact Option.noConfusion h
        · rw [hs] at hdd2
          have : dd = dd2 := Option.some.inj hdd2
          subst this
          have : ¬ dd < today := by omega
          simp [this]

/-- The lateness flag is set exactly when the stored due-date string parses
to a day strictly before today — completion status plays no role. -/
lemma lateInfo_true_iff (due : Option String) (today : Nat) :
    (lateInfo due today).1 = true
      ↔ ∃ dd, strptimeDays (dueStr due) = some dd ∧ dd < today := by
  cases due with
  | none =>
    rw [show lateInfo none today = (false, 0) from rfl,
        show dueStr none = "No date" from rfl]
    constructor
    · intro h; exact Bool.noConfusion h
    · rintro ⟨dd, hdd, _⟩
      rw [show strptimeDays "No date" = none from rfl] at hdd
      exact Option.noConfusion hdd
  | some ds =>
    by_cases he : ds = ""
    · subst he
      rw [show lateInfo (some "") today = (false, 0) from rfl,
          show dueStr (some "") = "No date" from rfl]
      constructor
      · intro h; exact Bool.noConfusion h
      · rintro ⟨dd, hdd, _⟩
        rw [show strptimeDays "No date" = none from rfl] at hdd
        exact Option.noConfusion hdd
    · have hds : dueStr (some ds) = ds := by
        simp only [dueStr]
        rw [if_neg he]
      rw [hds]
      simp only [lateInfo]
      rw [if_neg he]
      split
      · next dd heq =>
          by_cases hlt : dd < today
          · rw [if_pos hlt]
            constructor
            · intro _; exact ⟨dd, heq, hlt⟩
            · intro _; rfl
          · rw [if_neg hlt]
            constructor
            · intro h; exact Bool.noConfusion h
            · rintro ⟨dd2, hdd2, hlt2⟩
              rw [heq] at hdd2
              have hde : dd = dd2 := Option.some.inj hdd2
              subst hde
              exact absurd hlt2 hlt
      · next heq =>
          constructor
          · intro h; exact Bool.noConfusion h
          · rintro ⟨dd, hdd, _⟩
            rw [heq] at hdd
            exact Option.noConfusion hdd

/-! ### Claim C10 -/

/-- Claim C10: every normalized task satisfies `days_late ≥ 0`, the flag
`is_late` holds exactly when `days_late > 0`, and `days_late = 0` whenever
the stored due date is unparseable or not strictly in the past. -/
theorem C10_late_invariant : ∀ (page : JVal) (dept : String) (today : Nat) (t : Task),
    parse_task page dept today = some t →
    0 ≤ t.days_late
    ∧ (t.is_late = true ↔ 0 < t.days_late)
    ∧ ((strptimeDays t.due_date = none
        ∨ ∃ dd, strptimeDays t.due_date = some dd ∧ today ≤ dd) → t.days_late = 0) := by
  intro page dept today t h
  obtain ⟨due, hd, hl, hdl⟩ := parse_task_some_shape page dept today t h
  rw [hl, hdl, hd]
  exact ⟨lateInfo_nonneg due today, lateInfo_late_iff due today,
    lateInfo_zero due today⟩

/-- A raw record whose task is completed but overdue. -/
def donePage : JVal := .obj [("properties", .obj [
  ("Task Name", .obj [("title", .arr [.obj [("plain_text", .str "Ship report")]])]),
  ("Status", .obj [("select", .obj [("name", .str "Done")])]),
  ("Due Date", .obj [("date", .obj [("start", .str "2024-01-01")])]),
  ("Owner", .obj [("people", .arr [.obj [("id", .str "24d871d8-8afe-498b-a434-e2609bb1789d")]])]),
  ("Next Steps", .obj [("rich_text", .arr [])]),
  ("Blocker", .obj [("select", .obj [("name", .str "None")])]),
  ("Impact", .obj [("rich_text", .arr [])]),
  ("Priority", .obj [("select", .obj [("name", .str "High")])])])]

/-- The task parsed from `donePage` on 2024-01-02 (ordinal 738887). -/
def c10t : Task :=
  ⟨.str "Ship report", [.str "Omar"], .str "Done", "2024-01-01", .str "",
   .str "None", .str "", .str "High", "Tech", true, 1, true⟩

/-- Witness for C10: the invariant at a concrete parsed task. -/
theorem C10_witness :
    parse_task donePage "Tech" 738887 = some c10t
    ∧ 0 ≤ c10t.days_late ∧ (c10t.is_late = true ↔ 0 < c10t.days_late) := by
  have hp : parse_task donePage "Tech" 738887 = some c10t := rfl
  have h := C10_late_invariant donePage "Tech" 738887 c10t hp
  exact ⟨hp, h.1, h.2.1⟩

/-! ### Claim C4 -/

/-- Claim C4 counterexample: a task due 2024-01-01 with status "Done",
parsed on 2024-01-02, comes out with `is_late = true` even though it is
completed — the code never consults completion when setting `is_late`. -/
theorem C4_counterexample :
    (parse_task donePage "Tech" 738887).map (fun t => (t.is_late, t.is_completed))
      = some (true, true) := rfl

/-- Claim C4 (amended): for every normalized task, `is_late` is true exactly
when the stored due date parses to a day strictly before today, regardless
of completion; in particular a task due yesterday with status "In progress"
has `is_late = true` and `is_completed = false`. -/
theorem C4_is_late_ignores_completion :
    ∀ (page : JVal) (dept : String) (today : Nat) (t : Task),
    parse_task page dept today = some t →
    (t.is_late = true ↔ ∃ dd, strptimeDays t.due_date = some dd ∧ dd < today) := by
  intro page dept today t h
  obtain ⟨due, hd, hl, _⟩ := parse_task_some_shape page dept today t h
  rw [hl, hd]
  exact lateInfo_true_iff due today

/-- A raw record for an in-progress task due yesterday. -/
def inProgPage : JVal := .obj [("properties", .obj [
  ("Task Name", .obj [("title", .arr [.obj [("plain_text", .str "Draft budget")]])]),
  ("Status", .obj [("select", .obj [("name", .str "In progress")])]),
  ("Due Date", .obj [("date", .obj [("start", .str "2024-01-01")])]),
  ("Owner", .obj [("people", .arr [.obj [("id", .str "f9776ebc-9f9c-4bc1-89de-903114a4107a")]])]),
  ("Next Steps", .obj [("rich_text", .arr [])]),
  ("Blocker", .obj [("select", .obj [("name", .str "None")])]),
  ("Impact", .obj [("rich_text", .arr [])]),
  ("Priority", .obj [("select", .obj [("name", .str "High")])])])]

/-- The task parsed from `inProgPage` on 2024-01-02. -/
def inProgTask : Task :=
  ⟨.str "Draft budget", [.str "Deema"], .str "In progress", "2024-01-01", .str "",
   .str "None", .str "", .str "High", "Tech", true, 1, false⟩

/-- Witness for C4: the amended theorem at the spec's own example — a task
due yesterday and in progress is late and not completed. -/
theorem C4_witness :
    parse_task inProgPage "Tech" 738887 = some inProgTask
    ∧ inProgTask.is_late = true ∧ inProgTask.is_completed = false := by
  refine ⟨rfl, ?_, rfl⟩
  exact (C4_is_late_ignores_completion inProgPage "Tech" 738887 inProgTask rfl).mpr
    ⟨738886, rfl, by decide⟩

/-! ### Claim C9 -/

/-- Claim C9: the normalizer is total — any internal parse error yields
`None` (the catch-all), a record whose parse fails is dropped without
disturbing the parses of the records before or after it on the page, and
normalization never fabricates records. -/
theorem C9_normalizer_total :
    (∀ (page : JVal) (dept : String) (today : Nat) e,
       parse_task_inner page dept today = .error e →
       parse_task page dept today = none)
    ∧ (∀ (dept : String) (today : Nat) (xs ys : List JVal) (bad : JVal),
       parse_task bad dept today = none →
       parse_pages (xs ++ bad :: ys) dept today
         = parse_pages xs dept today ++ parse_pages ys dept today)
    ∧ (∀ (pages : List JVal) (dept : String) (today : Nat),
       (parse_pages pages dept today).length ≤ pages.length) := by
  refine ⟨?_, ?_, ?_⟩
  · intro page dept today e h
    unfold parse_task
    rw [h]
  · intro dept today xs ys bad hbad
    unfold parse_pages
    rw [List.filterMap_append]
    congr 1
    simp [List.filterMap_cons, hbad]
  · intro pages dept today
    exact List.length_filterMap_le _ _

/-- A raw record with a valid name but a `null` Status select, on which the
Python body raises (`None.get`) inside the catch-all. -/
def badPage : JVal := .obj [("properties", .obj [
  ("Task Name", .obj [("title", .arr [.obj [("plain_text", .str "Broken record")]])]),
  ("Status", .obj [("select", JVal.null)])])]

/-- A minimal healthy record. -/
def mkPage (nm : String) : JVal := .obj [("properties", .obj [
  ("Task Name", .obj [("title", .arr [.obj [("plain_text", .str nm)]])]),
  ("Status", .obj [("select", .obj [("name", .str "In progress")])])])]

/-- Witness for C9: a malformed record in the middle of a page is dropped
and the surrounding records still parse. -/
theorem C9_witness :
    parse_task badPage "Tech" 738887 = none
    ∧ parse_pages [mkPage "Audit logs", badPage, mkPage "Fix build"] "Tech" 738887
        = parse_pages [mkPage "Audit logs"] "Tech" 738887
          ++ parse_pages [mkPage "Fix build"] "Tech" 738887 := by
  have h1 : parse_task badPage "Tech" 738887 = none :=
    C9_normalizer_total.1 badPage "Tech" 738887 "AttributeError: get" rfl
  exact ⟨h1, C9_normalizer_total.2.1 "Tech" 738887
    [mkPage "Audit logs"] [mkPage "Fix build"] badPage h1⟩

/-! ### Claim C1 -/

/-- A faulting collection anywhere in the configured list contributes no
tasks (the other collections' results are exactly those of the same round
without it) and leaves its fault in the log. -/
lemma fetchRound_fault (fetch : String → String → FetchOutcome) (today : Nat)
    (dF idF : String) (hid : idF ≠ "") (hf : (fetch dF idF).isFault = true) :
    ∀ pre post : List (String × String),
      (fetchRound fetch today (pre ++ (dF, idF) :: post)).1
        = (fetchRound fetch today (pre ++ post)).1
      ∧ ∀ le, faultLog dF (fetch dF idF) = some le →
          le ∈ (fetchRound fetch today (pre ++ (dF, idF) :: post)).2.1 := by
  intro pre
  induction pre with
  | nil =>
    intro post
    simp only [List.nil_append]
    cases hfo : fetch dF idF with
    | ok pages =>
      rw [hfo] at hf
      exact absurd hf (by simp [FetchOutcome.isFault])
    | timeout =>
      constructor
      · simp only [fetchRound, if_neg hid, hfo]
      · intro le hle
        simp only [faultLog, Option.some.injEq] at hle
        subst hle
        simp only [fetchRound, if_neg hid, hfo]
        exact List.mem_cons_self _ _
    | fetchError m =>
      constructor
      · simp only [fetchRound, if_neg hid, hfo]
      · intro le hle
        simp only [faultLog, Option.some.injEq] at hle
        subst hle
        simp only [fetchRound, if_neg hid, hfo]
        exact List.mem_cons_self _ _
  | cons p pre ih =>
    intro post
    obtain ⟨d0, i0⟩ := p
    simp only [List.cons_append]
    by_cases h0 : i0 = ""
    · constructor
      · simp only [fetchRound, if_pos h0]
        exact (ih post).1
      · intro le hle
        simp only [fetchRound, if_pos h0]
        exact (ih post).2 le hle
    · cases hfo : fetch d0 i0 with
      | timeout =>
        constructor
        · simp only [fetchRound, if_neg h0, hfo]
          exact (ih post).1
        · intro le hle
          simp only [fetchRound, if_neg h0, hfo]
          exact List.mem_cons_of_mem _ ((ih post).2 le hle)
      | fetchError m =>
        constructor
        · simp only [fetchRound, if_neg h0, hfo]
          exact (ih post).1
        · intro le hle
          simp only [fetchRound, if_neg h0, hfo]
          exact List.mem_cons_of_mem _ ((ih post).2 le hle)
      | ok pages =>
        constructor
        · simp only [fetchRound, if_neg h0, hfo]
          rw [(ih post).1]
        · intro le hle
          simp only [fetchRound, if_neg h0, hfo]
          exact (ih post).2 le hle

/-- Claim C1: a collection failure (timeout or any error) is caught,
contributes an empty partial result plus a logged fault, and never disturbs
the sibling fetches; in particular, with two configured collections of which
one times out and the other returns records parsing to 5 tasks,
`get_all_tasks` returns exactly those 5 tasks and logs the timeout. -/
theorem C1_fault_isolation :
    (∀ (env : Env) (pre post : List (String × String)) (dF idF : String),
       env.notionReady = true →
       env.databases = pre ++ (dF, idF) :: post →
       idF ≠ "" →
       (env.fetch dF idF).isFault = true →
       (get_all_tasks env none).tasks
         = (get_all_tasks ⟨env.notionReady, pre ++ post, env.fetch, env.today⟩ none).tasks
       ∧ ∀ le, faultLog dF (env.fetch dF idF) = some le →
           le ∈ (get_all_tasks env none).log)
    ∧ (∀ (dA idA dB idB : String) (fetch : String → String → FetchOutcome)
         (pages : List JVal) (today : Nat),
       idA ≠ "" → idB ≠ "" →
       fetch dA idA = .timeout →
       fetch dB idB = .ok pages →
       (parse_pages pages dB today).length = 5 →
       (get_all_tasks ⟨true, [(dA, idA), (dB, idB)], fetch, today⟩ none).tasks
         = parse_pages pages dB today
       ∧ (get_all_tasks ⟨true, [(dA, idA), (dB, idB)], fetch, today⟩ none).tasks.length = 5
       ∧ LogEntry.timeoutFault dA
           ∈ (get_all_tasks ⟨true, [(dA, idA), (dB, idB)], fetch, today⟩ none).log) := by
  constructor
  · intro env pre post dF idF hn hdb hid hf
    have h := fetchRound_fault env.fetch env.today dF idF hid hf pre post
    constructor
    · simp only [get_all_tasks, hn, if_true]
      rw [hdb]
      exact h.1
    · intro le hle
      simp only [get_all_tasks, hn, if_true]
      rw [hdb]
      exact h.2 le hle
  · intro dA idA dB idB fetch pages today hA hB hfa hfb h5
    have e1 : (get_all_tasks ⟨true, [(dA, idA), (dB, idB)], fetch, today⟩ none).tasks
        = parse_pages pages dB today := by
      simp only [get_all_tasks, if_true]
      simp only [fetchRound, if_neg hA, if_neg hB, hfa, hfb, List.append_nil]
    have e2 : LogEntry.timeoutFault dA
        ∈ (get_all_tasks ⟨true, [(dA, idA), (dB, idB)], fetch, today⟩ none).log := by
      simp only [get_all_tasks, if_true]
      simp only [fetchRound, if_neg hA, if_neg hB, hfa, hfb]
      exact List.mem_cons_self _ _
    exact ⟨e1, by rw [e1, h5], e2⟩

/-- The fetch behaviour of the C1 scenario: Operations times out, Tech
returns five healthy records. -/
def c1fetch : String → String → FetchOutcome := fun dept _ =>
  if dept = "Ops" then .timeout
  else .ok [mkPage "Migrate DNS", mkPage "Close Q3 books", mkPage "Hire SRE",
            mkPage "Renew contract", mkPage "Ship mobile build"]

/-- Witness for C1: the scenario instantiated — one timeout, five tasks
through, the timeout logged. -/
theorem C1_witness :
    (get_all_tasks ⟨true, [("Ops", "db1"), ("Tech", "db2")], c1fetch, 738887⟩ none).tasks.length = 5
    ∧ LogEntry.timeoutFault "Ops"
        ∈ (get_all_tasks ⟨true, [("Ops", "db1"), ("Tech", "db2")], c1fetch, 738887⟩ none).log := by
  have h := C1_fault_isolation.2 "Ops" "db1" "Tech" "db2" c1fetch
    [mkPage "Migrate DNS", mkPage "Close Q3 books", mkPage "Hire SRE",
     mkPage "Renew contract", mkPage "Ship mobile build"] 738887
    (by decide) (by decide) rfl rfl (by decide)
  exact ⟨h.2.1, h.2.2⟩

/-! ### Claim C5 -/

/-- Claim C5 counterexample: with a context entry one hour stale, the
follow-up phrase "blockers" is classified as the blockers intent, not as the
fallback overview intent the claim requires (the stale person is still not
used — but the classification is not `company_update`). -/
theorem C5_counterexample :
    (understand_query "blockers" (some "U1") [("U1", "Omar", 0)] 4000).1.intent
      = IntentKind.blockers_update
    ∧ IntentKind.blockers_update ≠ IntentKind.company_update :=
  ⟨rfl, by decide⟩

/-- Claim C5 (amended): an entry older than the 1-hour TTL is purged before
classification, so a follow-up phrase resolves through the regular rules
with no binding to the stale person: "pipeline" yields the fallback overview
intent, while "blockers" yields the (person-free) blockers intent — never an
intent bound to the remembered person. -/
theorem C5_ctx_expiry :
    ∀ (u p : String) (t0 now : Nat), 3600 < now - t0 →
      understand_query "pipeline" (some u) [(u, p, t0)] now
        = ({intent := .company_update, tone := "friendly", confidence := 0.5}, [])
      ∧ understand_query "blockers" (some u) [(u, p, t0)] now
        = ({intent := .blockers_update, tone := "concerned", confidence := 0.8}, []) := by
  intro u p t0 now h
  have hc : cleanup_old_contexts now [(u, p, t0)] = [] := by
    simp only [cleanup_old_contexts, List.filter_cons, List.filter_nil]
    have hno : ¬ (now - t0 ≤ 3600) := by omega
    simp [hno]
  constructor
  · unfold understand_query
    rw [hc]
    by_cases hu : u = ""
    · subst hu; rfl
    · simp only [if_neg hu, List.lookup_nil]
      rfl
  · unfold understand_query
    rw [hc]
    by_cases hu : u = ""
    · subst hu; rfl
    · simp only [if_neg hu, List.lookup_nil]
      rfl

/-- Witness for C5: the amended theorem at a concrete expired context. -/
theorem C5_witness :
    understand_query "pipeline" (some "U9") [("U9", "Deema", 10)] 9999
      = ({intent := .company_update, tone := "friendly", confidence := 0.5}, []) :=
  (C5_ctx_expiry "U9" "Deema" 10 9999 (by decide)).1

/-! ### Claim C6 -/

/-- With no stored context, `understand_query` on a non-empty query is the
plain rule cascade. -/
lemma understand_query_no_ctx (q : String) (uid : Option String) (now : Nat)
    (hq : q ≠ "") :
    understand_query q uid [] now = classify_rules (pyStrip (pyLower q)) uid [] now := by
  unfold understand_query
  rw [show cleanup_old_contexts now [] = [] from rfl, if_neg hq]
  cases uid with
  | none => rfl
  | some u =>
    by_cases hu : u = ""
    · subst hu; rfl
    · simp only [if_neg hu, List.lookup_nil]

/-- Claim C6 counterexample: "help overdue" contains a help phrase and a
timeframe phrase, yet classifies as the timeframe (late-tasks) intent — help
is evaluated after the timeframe vocabulary, not before. -/
theorem C6_counterexample :
    (understand_query "help overdue" none [] 0).1.intent = IntentKind.late_tasks
    ∧ IntentKind.late_tasks ≠ IntentKind.help :=
  ⟨rfl, by decide⟩

/-- Claim C6 (amended): of the social vocabularies only greeting (and
thanks) precede the timeframe rules — any context-free query containing a
greeting phrase classifies as the greeting intent — while the help
vocabulary is evaluated after the timeframe, person, department and category
rules, so a query with both a help phrase and a timeframe phrase yields the
timeframe intent. -/
theorem C6_social_order :
    (∀ (q : String) (uid : Option String) (now : Nat), q ≠ "" →
       vocabAny greeting_words (pyStrip (pyLower q)) = true →
       (understand_query q uid [] now).1.intent = IntentKind.greeting)
    ∧ (understand_query "help overdue" none [] 0).1.intent = IntentKind.late_tasks := by
  constructor
  · intro q uid now hq hg
    rw [understand_query_no_ctx q uid now hq]
    unfold classify_rules
    simp only [hg, if_true]
  · rfl

/-- Witness for C6: the amended theorem's greeting clause at a concrete
greeting query. -/
theorem C6_witness :
    (understand_query "hi team" none [] 5).1.intent = IntentKind.greeting :=
  C6_social_order.1 "hi team" none 5 (by decide) (by decide)

/-! ### Claim C7 -/

/-- Item lists contribute one counted item per task. -/
lemma countP_item_map_name (l : List Task) :
    ((l.map (fun t => RLine.item t.name)).countP RLine.isItem) = l.length := by
  induction l with
  | nil => rfl
  | cons a l ih => simp [List.countP_cons, RLine.isItem, ih]

/-- Item lists contain no trailer lines. -/
lemma countP_more_map_name (l : List Task) :
    ((l.map (fun t => RLine.item t.name)).countP RLine.isMore) = 0 := by
  induction l with
  | nil => rfl
  | cons a l ih => simp [List.countP_cons, RLine.isMore, ih]

/-- A uniform sample task owned by Omar, in progress, with a next step. -/
def sampleTask (_i : Nat) : Task :=
  ⟨.str "Sample task", [.str "Omar"], .str "In progress", "No date", .str "Review draft",
   .str "None", .str "", .str "High", "Tech", false, 0, false⟩

/-- Claim C7 counterexample: 12 tasks matching the next-steps section (cap 6)
render exactly 6 items but NO "... and N more" trailer — the claim's required
trailer is absent. -/
theorem C7_counterexample :
    (nextStepsLines ((List.range 12).map sampleTask)).countP RLine.isItem = 6
    ∧ (nextStepsLines ((List.range 12).map sampleTask)).countP RLine.isMore = 0 :=
  ⟨rfl, rfl⟩

/-- Claim C7 (amended): caps and trailers are per-section, not uniform: the
late-tasks report renders at most 10 items and emits its "... and N more"
trailer exactly when the late set exceeds 10; the next-steps section renders
at most 6 items and never emits a trailer; and `generate_person_all_tasks`
has no cap at all — 12 matching tasks render 12 items with no trailer. -/
theorem C7_caps :
    (∀ tasks : List Task, tasks.all ownersWF = true →
       (generate_late_tasks_lines tasks).countP RLine.isItem ≤ 10
       ∧ (10 < (tasks.filter (fun t => t.is_late && !t.is_completed)).length →
          RLine.more ((tasks.filter (fun t => t.is_late && !t.is_completed)).length - 10)
            ∈ generate_late_tasks_lines tasks))
    ∧ (∀ tasks : List Task, tasks.all ownersWF = true →
       (nextStepsLines tasks).countP RLine.isItem ≤ 6
       ∧ (nextStepsLines tasks).countP RLine.isMore = 0)
    ∧ ((person_all_tasks_lines ((List.range 12).map sampleTask) "Omar").countP RLine.isItem = 12
       ∧ (person_all_tasks_lines ((List.range 12).map sampleTask) "Omar").countP RLine.isMore = 0) := by
  refine ⟨?_, ?_, rfl, rfl⟩
  · intro tasks _
    unfold generate_late_tasks_lines
    constructor
    · unfold lateLines
      by_cases hemp : (tasks.filter (fun t => t.is_late && !t.is_completed)).isEmpty
      · rw [if_pos hemp]
        simp
      · rw [if_neg hemp]
        rw [List.countP_append, countP_item_map_name]
        have h2 : ((if 10 < (tasks.filter (fun t => t.is_late && !t.is_completed)).length
            then [RLine.more ((tasks.filter (fun t => t.is_late && !t.is_completed)).length - 10)]
            else []) : List RLine).countP RLine.isItem = 0 := by
          split <;> rfl
        rw [h2, Nat.add_zero]
        exact List.length_take_le _ _
    · intro h10
      unfold lateLines
      have hemp : ¬ (tasks.filter (fun t => t.is_late && !t.is_completed)).isEmpty = true := by
        intro hcon
        rw [List.isEmpty_iff] at hcon
        rw [hcon] at h10
        simp at h10
      rw [if_neg hemp, if_pos h10]
      exact List.mem_append_right _ (List.mem_singleton.mpr rfl)
  · intro tasks _
    unfold nextStepsLines nsLines
    by_cases hemp : (tasks.filter hasNextStep).isEmpty
    · rw [if_pos hemp]
      exact ⟨by simp, rfl⟩
    · rw [if_neg hemp]
      constructor
      · rw [countP_item_map_name]
        exact List.length_take_le _ _
      · rw [countP_more_map_name]

/-- Eleven late, uncompleted sample tasks. -/
def lateSample (_i : Nat) : Task :=
  ⟨.str "Late task", [.str "Omar"], .str "In progress", "2024-01-01", .str "",
   .str "None", .str "", .str "High", "Tech", true, 1, false⟩

/-- Witness for C7: eleven late tasks produce the "one more" trailer in the
late-tasks report, and the capped next-steps section emits no trailer. -/
theorem C7_witness :
    RLine.more 1 ∈ generate_late_tasks_lines ((List.range 11).map lateSample)
    ∧ (nextStepsLines ((List.range 12).map sampleTask)).countP RLine.isMore = 0 :=
  ⟨(C7_caps.1 ((List.range 11).map lateSample) rfl).2 (by decide),
   (C7_caps.2.1 ((List.range 12).map sampleTask) rfl).2⟩

end TaskIntelBot
